import Mathlib

/-!
# The `service` command of amp (`cmd/service.go`)

A shallow embedding of the command handler `serviceCmd.Run`, of the package
initialiser `init`, and of the library operations they call: the client helper
of `amp-client-lib` (`NewHelper`, `SetBaseURL`, `Call`), `fmt.Printf`, and the
flag handling of cobra/pflag as far as a string flag needs it.

Go strings are modelled as `String`, Go integers as `Int` (the handler does no
arithmetic on them), and a Go function with effects as a value of `Go α`: the
effects it performed, in order, together with either its result or the panic
that stopped it.
-/

namespace Amp

/-! ## Data model -/

/-- The struct `data.AmpStatus` as far as the handler reads it. -/
structure AmpStatus where
  Name : String
  Id : Int
  Status : String
  deriving DecidableEq, Repr

/-- The dynamic value of the `interface{}` that `Helper.Call` returns. -/
inductive GoValue where
  /-- The nil interface value. -/
  | nilInterface
  /-- A value of dynamic type `*data.AmpStatus`; `none` is the nil pointer. -/
  | ampStatusPtr (p : Option AmpStatus)
  /-- A value of any other dynamic type, identified by the type's name. -/
  | otherType (typeName : String)
  deriving DecidableEq, Repr

/-- The remote operations of the client library that this command names. -/
inductive Operation where
  | AmpStatusSvc
  deriving DecidableEq, Repr

/-- The run-time panics the handler can raise. -/
inductive Panic where
  /-- A failed single-value type assertion `x.(T)`. -/
  | typeAssertion
  /-- A field read through a nil pointer. -/
  | nilDereference
  deriving DecidableEq, Repr

/-- The externally visible steps of a run, in the order they happen. -/
inductive Effect where
  /-- The function `client.NewHelper()` was called. -/
  | newHelper
  /-- The method `SetBaseURL(u)` was called on the helper. -/
  | setBaseURL (u : String)
  /-- The method `Call(op)` was issued by a helper whose base URL is `baseURL`. -/
  | call (baseURL : String) (op : Operation)
  /-- One write of `text` to standard output. -/
  | stdout (text : String)
  deriving DecidableEq, Repr

/-- A Go computation: the effects performed and the value returned, or the
panic that ended it. -/
structure Go (α : Type) where
  trace : List Effect
  result : Except Panic α

namespace Go

/-- A computation that returns at once. -/
def ret {α : Type} (a : α) : Go α := ⟨[], .ok a⟩

/-- Sequencing: a panic in the first part skips the second. -/
def andThen {α β : Type} (m : Go α) (f : α → Go β) : Go β :=
  match m.result with
  | .ok a => ⟨m.trace ++ (f a).trace, (f a).result⟩
  | .error p => ⟨m.trace, .error p⟩

/-- A computation that performs one effect. -/
def emit (e : Effect) : Go Unit := ⟨[e], .ok ()⟩

/-- A computation that panics. -/
def throw {α : Type} (p : Panic) : Go α := ⟨[], .error p⟩

instance : Monad Go where
  pure := ret
  bind := andThen

/-- The texts written to standard output, in order. -/
def writes {α : Type} (m : Go α) : List String :=
  m.trace.filterMap fun e => match e with
    | .stdout t => some t
    | _ => none

/-- The remote calls issued, in order, each with the base URL it went to. -/
def calls {α : Type} (m : Go α) : List (String × Operation) :=
  m.trace.filterMap fun e => match e with
    | .call u op => some (u, op)
    | _ => none

/-- The arguments of the `SetBaseURL` calls, in order. -/
def baseURLs {α : Type} (m : Go α) : List String :=
  m.trace.filterMap fun e => match e with
    | .setBaseURL u => some u
    | _ => none

/-- The panic that ended the computation, if any. -/
def panicked {α : Type} (m : Go α) : Option Panic :=
  match m.result with
  | .ok _ => none
  | .error p => some p

/-- The computation returned normally. -/
def returned {α : Type} (m : Go α) : Bool :=
  match m.result with
  | .ok _ => true
  | .error _ => false

end Go

/-! ## `fmt.Printf` -/

/-- An operand of `Printf`. -/
inductive Arg where
  | str (s : String)
  | int (i : Int)
  deriving DecidableEq, Repr

/-- The verb `%d` on an integer: an optional minus sign and the decimal digits
of the magnitude. -/
def fmtInteger (i : Int) : List Char :=
  if i < 0 then '-' :: Nat.toDigits 10 i.natAbs else Nat.toDigits 10 i.natAbs

/-- The Go type name of an operand, as the bad-verb report prints it. -/
def Arg.typeName : Arg → List Char
  | .str _ => "string".data
  | .int _ => "int".data

/-- The default rendering of an operand (the verb `%v`). -/
def Arg.value : Arg → List Char
  | .str s => s.data
  | .int i => fmtInteger i

/-- One plain verb applied to one operand. A verb that does not fit the
operand's type prints `%!verb(type=value)`. -/
def formatVerb (verb : Char) (a : Arg) : List Char :=
  match verb, a with
  | 'v', a => a.value
  | 's', .str s => s.data
  | 'd', .int i => fmtInteger i
  | c, a => "%!".data ++ [c] ++ "(".data ++ a.typeName ++ "=".data ++ a.value ++ ")".data

/-- The report of operands left over when the format is exhausted. -/
def extraReport : List Arg → List Char
  | [] => []
  | a :: rest =>
    "%!(EXTRA ".data ++ a.typeName ++ "=".data ++ a.value ++
      (rest.map fun b => ", ".data ++ b.typeName ++ "=".data ++ b.value).flatten ++ ")".data

/-- The text `fmt.Sprintf(format, args...)` builds, for formats made of literal
text, `%%` and plain verbs (no flags, width or precision). -/
def doPrintf : List Char → List Arg → List Char
  | [], args => extraReport args
  | ['%'], args => "%!(NOVERB)".data ++ extraReport args
  | '%' :: '%' :: rest, args => '%' :: doPrintf rest args
  | '%' :: c :: rest, [] => "%!".data ++ [c] ++ "(MISSING)".data ++ doPrintf rest []
  | '%' :: c :: rest, a :: args => formatVerb c a ++ doPrintf rest args
  | c :: rest, args => c :: doPrintf rest args

/-- The call `fmt.Printf(format, args...)`: the formatted text goes to standard
output in a single write. -/
def Printf (format : String) (args : List Arg) : Go Unit :=
  Go.emit (.stdout (String.mk (doPrintf format.data args)))

/-! ## The client helper -/

/-- The remote side: what a call of an operation at a base URL returns. -/
abbrev Remote := String → Operation → GoValue

/-- The request helper of the client library. -/
structure Helper where
  baseURL : String
  deriving DecidableEq, Repr

/-- The function `client.NewHelper()`. -/
def NewHelper : Go Helper := do
  Go.emit .newHelper
  pure ⟨""⟩

/-- The method `SetBaseURL`, which returns the helper for chaining. -/
def Helper.SetBaseURL (h : Helper) (u : String) : Go Helper := do
  Go.emit (.setBaseURL u)
  pure { h with baseURL := u }

/-- The method `Call`: one request to the remote side, which hands back what
the remote side answers as an `interface{}`. -/
def Helper.Call (h : Helper) (remote : Remote) (op : Operation) : Go GoValue := do
  Go.emit (.call h.baseURL op)
  pure (remote h.baseURL op)

/-- The type assertion `v.(*data.AmpStatus)` in its single-value form, which
panics unless the dynamic type is `*data.AmpStatus`. -/
def assertAmpStatusPtr : GoValue → Go (Option AmpStatus)
  | .ampStatusPtr p => pure p
  | _ => Go.throw .typeAssertion

/-- Reading the fields of `*p`, which panics on the nil pointer. -/
def deref : Option AmpStatus → Go AmpStatus
  | some s => pure s
  | none => Go.throw .nilDereference

/-! ## cobra commands and flags -/

/-- The package-level variables a flag can be bound to. -/
inductive Var where
  | URL
  deriving DecidableEq, Repr

/-- A string flag of a command. -/
structure Flag where
  Name : String
  Shorthand : String
  DefValue : String
  Usage : String
  target : Var
  deriving DecidableEq, Repr

/-- A cobra command: its texts and its own flags. -/
structure Command where
  Use : String
  Short : String
  Long : String
  flags : List Flag
  deriving DecidableEq, Repr

/-- The method `Command.Name`: the first word of `Use`. -/
def Command.Name (c : Command) : String :=
  String.mk (c.Use.data.takeWhile fun ch => ch != ' ')

/-! ## `cmd/service.go` -/

/-- The format string of the report. -/
def reportFormat : String :=
  "Service Results \n\t Name: %s \n\t Id: %d\n\t Status: %s\n "

/-- The handler `serviceCmd.Run`; `URL` is the package variable it reads. -/
def serviceCmd.Run (URL : String) (remote : Remote) (_cmd : Command)
    (_args : List String) : Go Unit := do
  let h ← NewHelper
  let h ← h.SetBaseURL URL
  let v ← h.Call remote .AmpStatusSvc
  let p ← assertAmpStatusPtr v
  let result ← deref p
  Printf reportFormat [.str result.Name, .int result.Id, .str result.Status]

/-- The package-level state of `cmd`: the variable `URL`, the command object
behind the pointer `serviceCmd`, and the names of the commands added to
`RootCmd` (declared in another file of the package), in order. -/
structure Package where
  URL : String
  serviceCmd : Command
  rootCommands : List String
  deriving DecidableEq, Repr

/-- The composite literal that initialises the variable `serviceCmd`. -/
def serviceCmdLiteral : Command :=
  { Use := "service"
    Short := "A brief description of your command"
    Long := "A longer description that spans multiple lines and likely contains examples\nand usage of using your command. For example:\nCobra is a CLI library for Go that empowers applications.\nThis application is a tool to generate the needed files\nto quickly create a Cobra application."
    flags := [] }

/-- The package before `init` runs: `URL` holds the zero value of `string`,
`serviceCmd` its literal, and `RootCmd` whatever commands it already has. -/
def Package.start (rootCommands : List String) : Package :=
  { URL := "", serviceCmd := serviceCmdLiteral, rootCommands := rootCommands }

/-- Assignment through the pointer a flag holds. -/
def Package.set (p : Package) (v : Var) (value : String) : Package :=
  match v with
  | .URL => { p with URL := value }

/-- The method `RootCmd.AddCommand(serviceCmd)`: the command is appended to the
root command's children. -/
def Package.AddCommand (p : Package) : Package :=
  { p with rootCommands := p.rootCommands ++ [p.serviceCmd.Name] }

/-- The call `serviceCmd.Flags().StringVarP(&v, name, shorthand, value, usage)`
on a flag set that has no flag of this name or shorthand yet, as in `init`:
the variable receives the default and the flag joins the command's flag set. -/
def Package.StringVarP (p : Package) (v : Var) (name shorthand value usage : String) :
    Package :=
  let q := p.set v value
  { q with serviceCmd :=
      { q.serviceCmd with
        flags := q.serviceCmd.flags ++ [⟨name, shorthand, value, usage, v⟩] } }

/-- The function `init` of `cmd/service.go`. -/
def init (p : Package) : Package :=
  (p.AddCommand).StringVarP .URL "url" "u" "http://localhost:32777"
    "Base URL To Connect with"

/-! ## Flag parsing (pflag) -/

/-- The ways parsing a command line can fail. -/
inductive FlagError where
  | badSyntax (arg : String)
  | unknownFlag (name : String)
  | unknownShorthand (c : Char)
  | needsArgument (name : String)
  deriving DecidableEq, Repr

/-- The flag with the given long name. -/
def lookupLong (flags : List Flag) (name : List Char) : Option Flag :=
  flags.find? fun f => f.Name.data == name

/-- The flag with the given one-letter shorthand. -/
def lookupShort (flags : List Flag) (c : Char) : Option Flag :=
  flags.find? fun f => f.Shorthand.data == [c]

/-- The split `strings.SplitN(s, "=", 2)`: the text before the first `=` and,
when there is one, the text after it. -/
def splitEq : List Char → List Char × Option (List Char)
  | [] => ([], none)
  | '=' :: rest => ([], some rest)
  | c :: rest => let r := splitEq rest; (c :: r.1, r.2)

/-- What one command-line argument asks for. -/
inductive Token where
  /-- An argument that is not a flag. -/
  | positional
  /-- The argument `--`, which ends the flags. -/
  | terminator
  /-- A rejected argument. -/
  | bad (e : FlagError)
  /-- A flag given together with its value. -/
  | assign (f : Flag) (value : String)
  /-- A flag whose value is the next argument. -/
  | expect (f : Flag)
  deriving DecidableEq, Repr

/-- The function `parseLongArg` on the text after `--`. -/
def parseLongArg (flags : List Flag) (s : String) (name : List Char) : Token :=
  match name with
  | [] => .bad (.badSyntax s)
  | '-' :: _ => .bad (.badSyntax s)
  | '=' :: _ => .bad (.badSyntax s)
  | _ =>
    let sp := splitEq name
    match lookupLong flags sp.1 with
    | none => .bad (.unknownFlag (String.mk sp.1))
    | some f =>
      match sp.2 with
      | some v => .assign f (String.mk v)
      | none => .expect f

/-- The function `parseSingleShortArg` on the text after `-`, for flags that
take a value. -/
def parseShortArg (flags : List Flag) (c : Char) (tail : List Char) : Token :=
  match lookupShort flags c with
  | none => .bad (.unknownShorthand c)
  | some f =>
    match tail with
    | [] => .expect f
    | ['='] => .assign f "="
    | '=' :: v => .assign f (String.mk v)
    | v => .assign f (String.mk v)

/-- The classification of one argument at the head of the loop of `parseArgs`. -/
def classify (flags : List Flag) (s : String) : Token :=
  match s.data with
  | [] => .positional
  | ['-'] => .positional
  | ['-', '-'] => .terminator
  | '-' :: '-' :: name => parseLongArg flags s name
  | '-' :: c :: tail => parseShortArg flags c tail
  | _ => .positional

/-- The method `FlagSet.Parse` for a set of string flags: the package after the
flags have been assigned, and the positional arguments left over. The second
argument is the flag that is waiting for its value. -/
def parseArgs (flags : List Flag) :
    Option Flag → List String → Package × List String →
      Except FlagError (Package × List String)
  | none, [], st => .ok st
  | some f, [], _ => .error (.needsArgument f.Name)
  | some f, v :: rest, (p, pos) => parseArgs flags none rest (p.set f.target v, pos)
  | none, s :: rest, (p, pos) =>
    match classify flags s with
    | .positional => parseArgs flags none rest (p, pos ++ [s])
    | .terminator => .ok (p, pos ++ rest)
    | .bad e => .error e
    | .assign f v => parseArgs flags none rest (p.set f.target v, pos)
    | .expect f => parseArgs flags (some f) rest (p, pos)

/-- The method `Command.execute` for the service command: the arguments after
the command's name are parsed against the command's own flags, and the handler
runs on what is left unless parsing failed. Flags the root command passes down
to its children are declared with the root command, in another file, and are
not part of this flag set. -/
def execute (p : Package) (remote : Remote) (a : List String) :
    Except FlagError (Go Unit) :=
  match parseArgs p.serviceCmd.flags none a (p, []) with
  | .error e => .error e
  | .ok (q, argWoFlags) => .ok (serviceCmd.Run q.URL remote q.serviceCmd argWoFlags)

/-- The base URLs the client was configured with in a run of the command, when
the command line was accepted. -/
def configuredURLs (r : Except FlagError (Go Unit)) : Option (List String) :=
  match r with
  | .ok m => some m.baseURLs
  | .error _ => none

/-! ## The report, as the code prints it and as the specification words it -/

/-- The text the format string of the handler produces for a status value. -/
def reportText (s : AmpStatus) : String :=
  "Service Results \n\t Name: " ++ s.Name ++ " \n\t Id: " ++ String.mk (fmtInteger s.Id) ++
    "\n\t Status: " ++ s.Status ++ "\n "

/-- The template of the specification,
`Service Results \n\t Name: <Name> \n\t Id: <Id>\n\t Status: <Status>\n`,
with `Id` in decimal. -/
def specTemplate (s : AmpStatus) : String :=
  "Service Results \n\t Name: " ++ s.Name ++ " \n\t Id: " ++ toString s.Id ++
    "\n\t Status: " ++ s.Status ++ "\n"

/-- The status value of the specification's example. -/
def exampleStatus : AmpStatus := ⟨"svc", 42, "OK"⟩

/-- A remote side that answers every call with the same value. -/
def constRemote (v : GoValue) : Remote := fun _ _ => v

/-! ## Lemmas -/

/-- The verb `%d` prints the standard decimal rendering of the integer. -/
theorem fmtInteger_eq_toString (i : Int) : String.mk (fmtInteger i) = toString i := by
  cases i with
  | ofNat n =>
    have h : ¬ ((n : Int) < 0) := not_lt.mpr (Int.ofNat_nonneg n)
    simp [fmtInteger, toString, Int.repr, Nat.repr, List.asString, h]
  | negSucc n =>
    apply String.ext
    simp [fmtInteger, toString, Int.repr, Nat.repr, List.asString, Int.negSucc_lt_zero]

/-- The format string applied to the three fields. -/
theorem doPrintf_report (s : AmpStatus) :
    String.mk (doPrintf reportFormat.data [.str s.Name, .int s.Id, .str s.Status]) =
      reportText s := by
  apply String.ext
  simp [reportFormat, reportText, doPrintf, formatVerb, extraReport]

/-- The printed text is the template of the specification and one more blank. -/
theorem reportText_eq_specTemplate (s : AmpStatus) : reportText s = specTemplate s ++ " " := by
  apply String.ext
  simp [reportText, specTemplate, ← fmtInteger_eq_toString]

/-- The three ways a run of the handler can go, by what the call returned. -/
theorem Run_eq (URL : String) (remote : Remote) (cmd : Command) (args : List String) :
    serviceCmd.Run URL remote cmd args =
      match remote URL .AmpStatusSvc with
      | .ampStatusPtr (some s) =>
        ⟨[.newHelper, .setBaseURL URL, .call URL .AmpStatusSvc, .stdout (reportText s)], .ok ()⟩
      | .ampStatusPtr none =>
        ⟨[.newHelper, .setBaseURL URL, .call URL .AmpStatusSvc], .error .nilDereference⟩
      | _ =>
        ⟨[.newHelper, .setBaseURL URL, .call URL .AmpStatusSvc], .error .typeAssertion⟩ := by
  unfold serviceCmd.Run
  rcases h : remote URL .AmpStatusSvc with _ | p | t
  · simp [bind, pure, Go.andThen, Go.ret, Go.emit, Go.throw, NewHelper, Helper.SetBaseURL,
      Helper.Call, assertAmpStatusPtr, h]
  · cases p <;>
      simp [bind, pure, Go.andThen, Go.ret, Go.emit, Go.throw, NewHelper, Helper.SetBaseURL,
        Helper.Call, assertAmpStatusPtr, deref, Printf, h, doPrintf_report]
  · simp [bind, pure, Go.andThen, Go.ret, Go.emit, Go.throw, NewHelper, Helper.SetBaseURL,
      Helper.Call, assertAmpStatusPtr, h]

/-- A run in which the call returned a status value. -/
theorem Run_success (URL : String) (remote : Remote) (cmd : Command) (args : List String)
    (s : AmpStatus) (h : remote URL .AmpStatusSvc = .ampStatusPtr (some s)) :
    serviceCmd.Run URL remote cmd args =
      ⟨[.newHelper, .setBaseURL URL, .call URL .AmpStatusSvc, .stdout (reportText s)],
        .ok ()⟩ := by
  rw [Run_eq, h]

/-- A run in which the call returned anything else stops after the call. -/
theorem Run_failure (URL : String) (remote : Remote) (cmd : Command) (args : List String)
    (h : ∀ s, remote URL .AmpStatusSvc ≠ .ampStatusPtr (some s)) :
    serviceCmd.Run URL remote cmd args =
      ⟨[.newHelper, .setBaseURL URL, .call URL .AmpStatusSvc],
        .error (if remote URL .AmpStatusSvc = .ampStatusPtr none then .nilDereference
          else .typeAssertion)⟩ := by
  rw [Run_eq]
  rcases hv : remote URL .AmpStatusSvc with _ | p | t
  · simp
  · cases p with
    | none => simp
    | some s => exact absurd hv (h s)
  · simp

/-- The handler configures the client once, with the value of `URL`. -/
theorem Run_baseURLs (URL : String) (remote : Remote) (cmd : Command) (args : List String) :
    (serviceCmd.Run URL remote cmd args).baseURLs = [URL] := by
  rw [Run_eq]
  rcases remote URL .AmpStatusSvc with _ | p | t
  · simp [Go.baseURLs]
  · cases p <;> simp [Go.baseURLs]
  · simp [Go.baseURLs]

/-- An argument that does not start with a dash is positional. -/
theorem classify_positional (flags : List Flag) (s : String)
    (h : s.data.head? ≠ some '-') : classify flags s = .positional := by
  unfold classify
  split <;> simp_all

/-- A command line without dashes leaves the package as it is. -/
theorem parseArgs_positional (flags : List Flag) (a : List String)
    (h : ∀ s ∈ a, s.data.head? ≠ some '-') (p : Package) (pos : List String) :
    parseArgs flags none a (p, pos) = .ok (p, pos ++ a) := by
  induction a generalizing pos with
  | nil => simp [parseArgs]
  | cons s rest ih =>
    have hs := classify_positional flags s (h s (by simp))
    rw [parseArgs, hs]
    simp only
    rw [ih (fun t ht => h t (by simp [ht]))]
    simp

/-- The package after `init`. -/
theorem init_start (rc : List String) :
    init (Package.start rc) =
      { URL := "http://localhost:32777"
        serviceCmd := { serviceCmdLiteral with
          flags :=
            [⟨"url", "u", "http://localhost:32777", "Base URL To Connect with", .URL⟩] }
        rootCommands := rc ++ ["service"] } := by
  simp [init, Package.start, Package.AddCommand, Package.StringVarP, Package.set,
    serviceCmdLiteral, Command.Name]

/-! ## Properties of the command -/

/-- C1: for Name "svc", Id 42 and Status "OK" the handler writes the template
of the specification followed by one blank after the final newline, so the
text on standard output is not exactly the template. -/
theorem report_ends_in_blank_after_newline :
    (serviceCmd.Run "http://localhost:32777" (constRemote (.ampStatusPtr (some exampleStatus)))
        serviceCmdLiteral []).writes
      = ["Service Results \n\t Name: svc \n\t Id: 42\n\t Status: OK\n "] ∧
    specTemplate exampleStatus = "Service Results \n\t Name: svc \n\t Id: 42\n\t Status: OK\n" ∧
    (serviceCmd.Run "http://localhost:32777" (constRemote (.ampStatusPtr (some exampleStatus)))
        serviceCmdLiteral []).writes
      ≠ [specTemplate exampleStatus] := by
  decide

/-- C2, as stated, fails: when the call returns the nil interface value the
handler does not terminate normally; it ends in the panic of the failed type
assertion. -/
theorem nil_result_panics :
    (serviceCmd.Run "http://localhost:32777" (constRemote .nilInterface)
        serviceCmdLiteral []).returned = false ∧
    (serviceCmd.Run "http://localhost:32777" (constRemote .nilInterface)
        serviceCmdLiteral []).panicked = some .typeAssertion := by
  decide

/-- C2, amended: when the call returns anything but a non-nil `*data.AmpStatus`,
the handler does no error handling of its own and ends in a run-time panic
fixed by the returned value: the nil-pointer panic for a nil `*data.AmpStatus`,
the type-assertion panic for the nil interface and for every other type. -/
theorem failed_call_ends_in_panic (URL : String) (remote : Remote) (cmd : Command)
    (args : List String) (h : ∀ s, remote URL .AmpStatusSvc ≠ .ampStatusPtr (some s)) :
    (serviceCmd.Run URL remote cmd args).returned = false ∧
    (serviceCmd.Run URL remote cmd args).panicked =
      some (if remote URL .AmpStatusSvc = .ampStatusPtr none then .nilDereference
        else .typeAssertion) := by
  rw [Run_failure URL remote cmd args h]
  simp [Go.returned, Go.panicked]

/-- C2, amended, at a call that returns a nil `*data.AmpStatus`. -/
theorem failed_call_ends_in_panic_witness :
    (∀ s, constRemote (.ampStatusPtr none) "http://localhost:32777" .AmpStatusSvc
        ≠ .ampStatusPtr (some s)) ∧
    (serviceCmd.Run "http://localhost:32777" (constRemote (.ampStatusPtr none))
        serviceCmdLiteral ["a"]).returned = false ∧
    (serviceCmd.Run "http://localhost:32777" (constRemote (.ampStatusPtr none))
        serviceCmdLiteral ["a"]).panicked =
      some (if constRemote (.ampStatusPtr none) "http://localhost:32777" .AmpStatusSvc
          = .ampStatusPtr none then .nilDereference else .typeAssertion) :=
  ⟨by simp [constRemote],
    failed_call_ends_in_panic "http://localhost:32777" (constRemote (.ampStatusPtr none))
      serviceCmdLiteral ["a"] (by simp [constRemote])⟩

/-- C3: whatever string u is given as the value of the flag, as `--url u`,
`--url=u` or `-u u`, the client is configured exactly once and with base URL u,
the empty string and strings that are no URLs included. -/
theorem url_flag_value_reaches_SetBaseURL (u : String) (rc : List String) (remote : Remote) :
    configuredURLs (execute (init (Package.start rc)) remote ["--url", u]) = some [u] ∧
    configuredURLs (execute (init (Package.start rc)) remote ["--url=" ++ u]) = some [u] ∧
    configuredURLs (execute (init (Package.start rc)) remote ["-u", u]) = some [u] := by
  refine ⟨?_, ?_, ?_⟩
  · simp [execute, init_start, parseArgs, classify, parseLongArg, splitEq, lookupLong,
      configuredURLs, Run_baseURLs, Package.set]
  · simp [execute, init_start, parseArgs, classify, parseLongArg, splitEq, lookupLong,
      configuredURLs, Run_baseURLs, Package.set]
  · simp [execute, init_start, parseArgs, classify, parseShortArg, lookupShort,
      configuredURLs, Run_baseURLs, Package.set]

/-- C4: when no argument of the command line starts with a dash (so no
`--url` or `-u` is given), the flag's registered default is
"http://localhost:32777" and the client is configured with exactly that base
URL. -/
theorem default_url_without_flag (rc : List String) (remote : Remote) (a : List String)
    (h : ∀ s ∈ a, s.data.head? ≠ some '-') :
    (init (Package.start rc)).serviceCmd.flags.map Flag.DefValue
      = ["http://localhost:32777"] ∧
    configuredURLs (execute (init (Package.start rc)) remote a)
      = some ["http://localhost:32777"] := by
  refine ⟨by simp [init_start], ?_⟩
  unfold execute
  rw [parseArgs_positional _ _ h]
  simp [configuredURLs, Run_baseURLs, init_start]

/-- C4 at the command line with the single positional argument "now". -/
theorem default_url_without_flag_witness :
    (∀ s ∈ ["now"], s.data.head? ≠ some '-') ∧
    (init (Package.start ["version"])).serviceCmd.flags.map Flag.DefValue
      = ["http://localhost:32777"] ∧
    configuredURLs (execute (init (Package.start ["version"]))
        (constRemote (.ampStatusPtr (some exampleStatus))) ["now"])
      = some ["http://localhost:32777"] :=
  ⟨by decide,
    default_url_without_flag ["version"] (constRemote (.ampStatusPtr (some exampleStatus)))
      ["now"] (by decide)⟩

/-- C5: when the call returns a status value, the handler performs, in this
order and nothing else: the construction of the helper, one `SetBaseURL` with
the base URL, one call of `AmpStatusSvc` at that base URL, and one write to
standard output; then it returns. -/
theorem success_effects_are_one_call_then_one_write (URL : String) (remote : Remote)
    (cmd : Command) (args : List String) (s : AmpStatus)
    (h : remote URL .AmpStatusSvc = .ampStatusPtr (some s)) :
    (serviceCmd.Run URL remote cmd args).trace =
      [.newHelper, .setBaseURL URL, .call URL .AmpStatusSvc, .stdout (reportText s)] ∧
    (serviceCmd.Run URL remote cmd args).calls = [(URL, .AmpStatusSvc)] ∧
    (serviceCmd.Run URL remote cmd args).writes = [reportText s] ∧
    (serviceCmd.Run URL remote cmd args).returned = true := by
  rw [Run_success URL remote cmd args s h]
  simp [Go.calls, Go.writes, Go.returned]

/-- C5 at the example status value. -/
theorem success_effects_are_one_call_then_one_write_witness :
    constRemote (.ampStatusPtr (some exampleStatus)) "http://example.com:9000" .AmpStatusSvc
      = .ampStatusPtr (some exampleStatus) ∧
    (serviceCmd.Run "http://example.com:9000"
        (constRemote (.ampStatusPtr (some exampleStatus))) serviceCmdLiteral []).calls
      = [("http://example.com:9000", .AmpStatusSvc)] :=
  ⟨rfl, (success_effects_are_one_call_then_one_write "http://example.com:9000"
    (constRemote (.ampStatusPtr (some exampleStatus))) serviceCmdLiteral [] exampleStatus
    rfl).2.1⟩

/-- C6: after `init` the command is among the root command's children under
the name "service", and its own flags are exactly one: the string flag "url"
with shorthand "u" and default "http://localhost:32777", bound to the variable
`URL`, whose value is what the handler passes to `SetBaseURL`. -/
theorem init_registers_service_with_url_flag (rc : List String) :
    (init (Package.start rc)).rootCommands = rc ++ ["service"] ∧
    (init (Package.start rc)).serviceCmd.Name = "service" ∧
    (init (Package.start rc)).serviceCmd.flags =
      [⟨"url", "u", "http://localhost:32777", "Base URL To Connect with", .URL⟩] ∧
    (init (Package.start rc)).URL = "http://localhost:32777" ∧
    (∀ (p : Package) (v : String), (p.set .URL v).URL = v) ∧
    (∀ (p : Package) (remote : Remote),
      execute p remote [] = .ok (serviceCmd.Run p.URL remote p.serviceCmd [])) := by
  refine ⟨by simp [init_start], ?_, by simp [init_start], by simp [init_start], ?_, ?_⟩
  · rw [init_start]; simp only; decide
  · intro p v; simp [Package.set]
  · intro p remote; simp [execute, parseArgs]

/-- C7: when the call returns anything but a non-nil `*data.AmpStatus`, the
handler stops at the type assertion or at the field reads: its effects end with
the call, nothing is written to standard output, and it does not return. -/
theorem failed_call_writes_nothing (URL : String) (remote : Remote) (cmd : Command)
    (args : List String) (h : ∀ s, remote URL .AmpStatusSvc ≠ .ampStatusPtr (some s)) :
    (serviceCmd.Run URL remote cmd args).writes = [] ∧
    (serviceCmd.Run URL remote cmd args).trace =
      [.newHelper, .setBaseURL URL, .call URL .AmpStatusSvc] ∧
    (serviceCmd.Run URL remote cmd args).panicked ≠ none := by
  rw [Run_failure URL remote cmd args h]
  simp [Go.writes, Go.panicked]

/-- C7 at a call that returns a value of another type. -/
theorem failed_call_writes_nothing_witness :
    (∀ s, constRemote (.otherType "string") "http://localhost:32777" .AmpStatusSvc
        ≠ .ampStatusPtr (some s)) ∧
    (serviceCmd.Run "http://localhost:32777" (constRemote (.otherType "string"))
        serviceCmdLiteral []).writes = [] :=
  ⟨by simp [constRemote],
    (failed_call_writes_nothing "http://localhost:32777" (constRemote (.otherType "string"))
      serviceCmdLiteral [] (by simp [constRemote])).1⟩

/-- C8: two invocations whose calls return the same value write the same text
to standard output, whatever their base URLs, command parameters and
positional arguments are; when their base URLs are equal too, the whole runs
are equal, the base URL passed to the client included. -/
theorem run_ignores_cmd_and_args (URL₁ URL₂ : String) (remote₁ remote₂ : Remote)
    (cmd₁ cmd₂ : Command) (args₁ args₂ : List String)
    (h : remote₁ URL₁ .AmpStatusSvc = remote₂ URL₂ .AmpStatusSvc) :
    (serviceCmd.Run URL₁ remote₁ cmd₁ args₁).writes
      = (serviceCmd.Run URL₂ remote₂ cmd₂ args₂).writes ∧
    (URL₁ = URL₂ →
      (serviceCmd.Run URL₁ remote₁ cmd₁ args₁).trace
          = (serviceCmd.Run URL₂ remote₂ cmd₂ args₂).trace ∧
      (serviceCmd.Run URL₁ remote₁ cmd₁ args₁).baseURLs
          = (serviceCmd.Run URL₂ remote₂ cmd₂ args₂).baseURLs ∧
      (serviceCmd.Run URL₁ remote₁ cmd₁ args₁).panicked
          = (serviceCmd.Run URL₂ remote₂ cmd₂ args₂).panicked) := by
  constructor
  · rw [Run_eq URL₁, Run_eq URL₂, h]
    rcases remote₂ URL₂ .AmpStatusSvc with _ | p | t
    · simp [Go.writes]
    · cases p <;> simp [Go.writes]
    · simp [Go.writes]
  · intro hu
    subst hu
    rw [Run_eq URL₁ remote₁ cmd₁, Run_eq URL₁ remote₂ cmd₂, h]
    simp

/-- C8 at two invocations with different base URLs, commands and arguments. -/
theorem run_ignores_cmd_and_args_witness :
    constRemote (.ampStatusPtr (some exampleStatus)) "http://a" .AmpStatusSvc
      = constRemote (.ampStatusPtr (some exampleStatus)) "http://b" .AmpStatusSvc ∧
    (serviceCmd.Run "http://a" (constRemote (.ampStatusPtr (some exampleStatus)))
        serviceCmdLiteral ["x"]).writes
      = (serviceCmd.Run "http://b" (constRemote (.ampStatusPtr (some exampleStatus)))
        ⟨"other", "", "", []⟩ ["y", "z"]).writes :=
  ⟨rfl, (run_ignores_cmd_and_args "http://a" "http://b"
    (constRemote (.ampStatusPtr (some exampleStatus)))
    (constRemote (.ampStatusPtr (some exampleStatus)))
    serviceCmdLiteral ⟨"other", "", "", []⟩ ["x"] ["y", "z"] rfl).1⟩

end Amp
